import Mathlib

/-!
Verification of the ArchBackup repository's backup/restore orchestration
engine.  The definitions below are a shallow embedding of the Python
sources: pure decision logic (exit-code classification, loop aggregation,
retention arithmetic, destination selection) becomes Lean functions, and
the stateful scripts become functions from an environment (which sources
exist, which tools are installed, which exit codes the external tools
return, which answers the operator types) to an exit code plus an ordered
trace of observable events.
-/

namespace ArchBackup

/-! ## Common helpers (src/common.py and the shared run_rsync wrapper) -/

/-- Python `str.strip()`: remove leading and trailing whitespace.
Defined on the character list of the string so that concrete instances
evaluate inside the kernel. -/
def py_strip (s : String) : String :=
  ⟨((s.data.dropWhile Char.isWhitespace).reverse.dropWhile
      Char.isWhitespace).reverse⟩

/-- Python `str.isdigit()` (ASCII digits, which is all the scripts deal
in): non-empty and all characters are digits. -/
def py_isdigit (s : String) : Bool :=
  !s.data.isEmpty && s.data.all (fun c => c.isDigit)

/-- Python `int()` applied to an all-digit string. -/
def py_int (s : String) : Nat :=
  s.data.foldl (fun n c => n * 10 + (c.toNat - 48)) 0

/-- Python `str.lower()` (ASCII). -/
def py_lower (s : String) : String :=
  ⟨s.data.map Char.toLower⟩

/-- Per-source transfer outcome: rsync exit code 0 is a success, the
designated soft codes 23 and 24 are partial transfers that are logged and
otherwise treated as success, and every other code is a hard failure. -/
inductive TransferResult
  | success
  | soft (code : Nat)
  | hard (code : Nat)
deriving DecidableEq, Repr

/-- Exit-code classification performed by `run_rsync` (duplicated in every
script, e.g. src/MAIN/backup-main.py lines 25-43): codes 23 and 24 print a
warning and return normally, any other non-zero code raises RuntimeError,
and 0 returns normally. -/
def run_rsync (code : Nat) : TransferResult :=
  if code = 23 ∨ code = 24 then .soft code
  else if code ≠ 0 then .hard code
  else .success

/-- Whether `run_rsync` raises RuntimeError for this rsync exit code. -/
def rsync_raises (code : Nat) : Bool :=
  match run_rsync code with
  | .hard _ => true
  | _ => false

/-- A declared source as the copy loops see it: whether the path exists at
call time, and the exit code rsync would return if it is invoked. -/
structure SrcOutcome where
  present : Bool
  code : Nat
deriving DecidableEq, Repr

/-- Free-space gate from src/common.py `check_free_space` (lines 88-100):
`avail_gb = usage.free // (1024**3)`, and the script exits with code 1
when `avail_gb < min_gb`.  Returns `true` when the check passes. -/
def check_free_space (freeBytes : Nat) (minGb : Nat) : Bool :=
  ¬ (freeBytes / (1024 ^ 3) < minGb)

/-- The interactive prompts `select_destination` can issue. -/
inductive SelectPrompt
  | selectNumber
  | confirmChoice
deriving DecidableEq, Repr

/-- Destination selection from src/common.py `select_destination`
(lines 57-85).  `choice` is the operator's reply to the index prompt,
read with `input(...).strip()`; a non-digit reply or an out-of-range
index exits immediately with status 1 (no re-prompting), and a valid
index is confirmed with a second prompt before returning.  Returns the
selected destination (`none` on the SystemExit(1) paths) and the list of
`input()` prompts issued, in order. -/
def select_destination (destinations : List String) (choice : String) :
    Option String × List SelectPrompt :=
  match destinations with
  | [] => (none, [])
  | [only] => (some only, [])
  | _ =>
    let c := py_strip choice
    if ¬ py_isdigit c then (none, [SelectPrompt.selectNumber])
    else
      let index := py_int c
      if index < 1 ∨ destinations.length < index then
        (none, [SelectPrompt.selectNumber])
      else
        (some (destinations.getD (index - 1) ""),
         [SelectPrompt.selectNumber, SelectPrompt.confirmChoice])

/-! ## backup-main.py: copy loop, archive step, exit code -/

/-- Aggregation state of the MAIN copy loop. -/
structure MainLoopState where
  rsync_failures : Nat
  sources_total : Nat
  sources_skipped : Nat
  rsync_calls : Nat
deriving DecidableEq, Repr

/-- One iteration of the MAIN copy loop (src/MAIN/backup-main.py lines
253-280): a missing source is logged and counted as skipped without
invoking rsync; an existing source is counted, rsync is invoked once, and
a RuntimeError from `run_rsync` increments `rsync_failures` after which
the loop continues. -/
def main_loop_step (st : MainLoopState) (src : SrcOutcome) : MainLoopState :=
  if ¬ src.present then
    { st with sources_skipped := st.sources_skipped + 1 }
  else
    let st := { st with
      sources_total := st.sources_total + 1
      rsync_calls := st.rsync_calls + 1 }
    if rsync_raises src.code then
      { st with rsync_failures := st.rsync_failures + 1 }
    else st

/-- The whole MAIN copy loop over the declared source list. -/
def main_copy_loop (sources : List SrcOutcome) : MainLoopState :=
  sources.foldl main_loop_step ⟨0, 0, 0, 0⟩

/-- Archive-step verdict in backup-main.py (lines 283-327).  The tar
command runs with `check=True`, so `CalledProcessError` is raised exactly
for a non-zero exit code; returncode 1 only logs a warning
("Compression completed with warnings"), while any other non-zero code
sets `tar_failed`. -/
def main_tar_failed (compress : Bool) (code : Nat) : Bool :=
  if compress then
    if code = 0 then false
    else if code = 1 then false
    else true
  else false

/-- Final exit code of backup-main.py (lines 338-340):
`if rsync_failures or tar_failed: return 1` else 0. -/
def main_exit_code (sources : List SrcOutcome) (compress : Bool)
    (tarCode : Nat) : Nat :=
  if (main_copy_loop sources).rsync_failures ≠ 0 ∨
      main_tar_failed compress tarCode then 1 else 0

/-! ## backup-dots.py: copy section, archive step, exit code -/

/-- One source block of backup-dots.py (lines 152-190).  Each of the four
declared sources is guarded by an existence check; a missing source
prints "not found" and increments `rsync_failures` without invoking
rsync, an existing source invokes rsync once and a RuntimeError
increments `rsync_failures`.  State is (rsync_failures, rsync
invocations performed). -/
def dots_src_step (st : Nat × Nat) (src : SrcOutcome) : Nat × Nat :=
  if src.present then
    (if rsync_raises src.code then st.1 + 1 else st.1, st.2 + 1)
  else
    (st.1 + 1, st.2)

/-- The DOTS copy section, i.e. the four consecutive source blocks
(source_root, hyprctl.json, restore-dots.sh, restore-dots.py) applied in
source order. -/
def dots_copy (sources : List SrcOutcome) : Nat × Nat :=
  sources.foldl dots_src_step (0, 0)

/-- Archive-step verdict in backup-dots.py (lines 192-230).  The tar
command runs with `check=True` and the handler sets `tar_failed = True`
for every `CalledProcessError`, i.e. for every non-zero exit code; there
is no special case for the warning code 1. -/
def dots_tar_failed (compress : Bool) (code : Nat) : Bool :=
  if compress then code ≠ 0 else false

/-- Final exit code of backup-dots.py (lines 234-236). -/
def dots_exit_code (sources : List SrcOutcome) (compress : Bool)
    (tarCode : Nat) : Nat :=
  if (dots_copy sources).1 ≠ 0 ∨ dots_tar_failed compress tarCode then 1
  else 0

/-! ## backup-grub.py: copy loop -/

/-- One iteration of the GRUB copy loop exactly as written in
src/SERV/GRUB/backup-grub.py lines 109-118.  In the source, the
`print("Copying: ...")`, the `try: run_rsync(...)` call and the failure
handler are all indented inside the `if not src.exists():` branch after
the `continue` statement, so they are unreachable: a missing source
prints "Skipping missing source" and continues, and the loop body for an
existing source contains no reachable statement at all.  State is
(rsync_failures, rsync invocations performed). -/
def grub_loop_step (st : Nat × Nat) (src : SrcOutcome) : Nat × Nat :=
  if ¬ src.present then
    -- prints "Skipping missing source: ..." then `continue`; the copy
    -- statements that follow inside this branch are dead code
    st
  else
    -- the `if` statement was the entire loop body, so nothing runs here
    st

/-- The whole GRUB copy loop over the declared source list. -/
def grub_copy_loop (sources : List SrcOutcome) : Nat × Nat :=
  sources.foldl grub_loop_step (0, 0)

/-! ## backup-ssh.py: retention rotation and final gate -/

/-- A run directory matching the `SSH-*` glob under the destination root,
with its modification time. -/
structure RunDir where
  name : String
  mtime : Nat
deriving DecidableEq, Repr

/-- Descending-by-mtime ordering used by `rotate_backups`:
`sorted(..., key=lambda p: p.stat().st_mtime, reverse=True)`. -/
def mtime_ge (a b : RunDir) : Prop := b.mtime ≤ a.mtime

instance : DecidableRel mtime_ge := fun a b => Nat.decLe b.mtime a.mtime

instance : IsTotal RunDir mtime_ge := ⟨fun a b => Nat.le_total b.mtime a.mtime⟩

instance : IsTrans RunDir mtime_ge :=
  ⟨fun _ _ _ h1 h2 => Nat.le_trans h2 h1⟩

/-- Retention rotation from src/SERV/SSH/backup-ssh.py `rotate_backups`
(lines 305-317).  A negative `keep` disables rotation; otherwise the run
directories are sorted by modification time descending (Python's `sorted`
is stable, modelled by a stable insertion sort) and every entry of the
slice `backups[keep:]` is handed to `shutil.rmtree`.  Returns the list of
directories whose deletion is attempted, in that order. -/
def rotate_backups (backups : List RunDir) (keep : Int) : List RunDir :=
  if keep < 0 then []
  else (List.insertionSort mtime_ge backups).drop keep.toNat

/-- The run directories `rotate_backups` leaves untouched: the complement
slice `backups[:keep]` of the same descending ordering (all of them when
rotation is disabled). -/
def rotate_kept (backups : List RunDir) (keep : Int) : List RunDir :=
  if keep < 0 then List.insertionSort mtime_ge backups
  else (List.insertionSort mtime_ge backups).take keep.toNat

/-- Run-level summary of backup-ssh.py as it reaches the final lines. -/
structure SshSummary where
  rsync_failures : Nat
  tar_failed : Bool
deriving DecidableEq, Repr

/-- Final gate of backup-ssh.py (lines 319-324): if `rsync_failures` is
non-zero or `tar_failed` is set the script returns 1 without calling
`rotate_backups`; otherwise it calls `rotate_backups` and returns 0.
Returns (exit code, whether rotate_backups was invoked). -/
def ssh_epilogue (s : SshSummary) : Nat × Bool :=
  if s.rsync_failures ≠ 0 ∨ s.tar_failed then (1, false)
  else (0, true)

/-! ## Observable events

The scripts with temporal claims (restore-dots.py, restore-smb.py,
backup-ssh.py) are embedded as functions from an environment to an exit
code plus the ordered list of observable operations they perform.  Each
constructor corresponds to one category of statement in the source; the
string argument says which source statement it stands for. -/

inductive Event
  | bannerPrompt
  | compressPrompt
  | gatePrompt
  | cancelled
  | servicePrompt
  | pressEnter
  | userPrompt
  | selectDest
  | freeSpaceCheck
  | sudoValidate
  | mkdirDir (desc : String)
  | openLog
  | moveFile (desc : String)
  | makeSymlink (desc : String)
  | writeFile (desc : String)
  | chmodFile (desc : String)
  | removeTree (desc : String)
  | rsyncCopy (desc : String)
  | sudoExec (desc : String)
  | sudoQuery (desc : String)
  | serviceRestart (desc : String)
  | tarRun
  | unlinkTmp
  | moveArchive
  | rotateCall
deriving DecidableEq, Repr

/-- Destructive file operations and service restarts in the sense of the
restore safety gate: moving, overwriting or deleting a file, an rsync
restore invocation (they run with `--delete-delay`), a mutation executed
through sudo, or a service restart.  Directory creation, symlink creation
at a vacated path, read-only sudo queries and prompts are not counted. -/
def Event.isDestructive : Event → Bool
  | .moveFile _ => true
  | .writeFile _ => true
  | .chmodFile _ => true
  | .removeTree _ => true
  | .rsyncCopy _ => true
  | .sudoExec _ => true
  | .serviceRestart _ => true
  | _ => false

/-- Whether an event is neither the confirmation-gate prompt nor the
cancellation marker (used to state that a piece of a script never
prompts the gate or cancels). -/
def gate_free : Event → Bool
  | .gatePrompt => false
  | .cancelled => false
  | _ => true

/-- The affirmative-answer test used by every confirmation gate:
`input(...).strip()` followed by `answer.lower() != "y"`. -/
def answer_is_yes (s : String) : Bool := py_lower (py_strip s) == "y"

/-! ## restore-dots.py as an event trace -/

/-- One entry of the `groups` dict of restore-dots.py (lines 123-165) as
the restore loop sees it: whether at least one of its listed items exists
in the backup folder, and the rsync exit code if rsync is invoked. -/
structure GroupOutcome where
  hasSources : Bool
  code : Nat
deriving DecidableEq, Repr

/-- Environment of one restore-dots.py invocation. -/
structure DotsRestoreEnv where
  noBanner : Bool
  autoYes : Bool
  confirm : Bool
  answer : String
  rsyncPresent : Bool
  cavaExists : Bool
  wallpapersExists : Bool
  hyprEnvIsFile : Bool
  hyprEnvHasLine : Bool
  groups : List GroupOutcome
deriving Repr

/-- One iteration of the restore loop of restore-dots.py (lines 167-185):
the destination directory of the group is created, then rsync is invoked
once when the group has at least one existing source; a RuntimeError
increments `rsync_failures` and the loop continues. -/
def dots_group_step (st : Nat × List Event) (g : GroupOutcome) :
    Nat × List Event :=
  let st := (st.1, st.2 ++ [Event.mkdirDir "group-dest"])
  if g.hasSources then
    ((if rsync_raises g.code then st.1 + 1 else st.1),
     st.2 ++ [Event.rsyncCopy "group"])
  else st

/-- The whole restore loop of restore-dots.py.  Returns (rsync_failures,
events). -/
def dots_restore_groups (groups : List GroupOutcome) : Nat × List Event :=
  groups.foldl dots_group_step (0, [])

/-- The statements of restore-dots.py that run before the confirmation
gate once the rsync tool check has passed (lines 56-108): creating the
destination directory, moving an existing `~/.config/cava` aside and
symlinking it, moving an existing wallpapers directory aside and
symlinking it, and appending the Hyprland environment line to nvidia.conf
when the file exists and lacks it. -/
def dots_pre_gate (env : DotsRestoreEnv) : List Event :=
  [Event.mkdirDir "dest_dir"]
    ++ (if env.cavaExists then [Event.moveFile "cava"] else [])
    ++ [Event.makeSymlink "cava"]
    ++ (if env.wallpapersExists then [Event.moveFile "wallpapers"] else [])
    ++ [Event.makeSymlink "wallpapers"]
    ++ (if env.hyprEnvIsFile && !env.hyprEnvHasLine then
          [Event.writeFile "nvidia.conf"]
        else [])

/-- Everything restore-dots.py runs after the gate has been passed: the
group restore loop and the final exit code (1 iff any hard failure,
lines 187-189). -/
def dots_tail (env : DotsRestoreEnv) : Nat × List Event :=
  let r := dots_restore_groups env.groups
  (if r.1 ≠ 0 then 1 else 0, r.2)

/-- Whole-run model of restore-dots.py `main` (lines 37-189): banner,
rsync tool check, pre-gate symlink setup, the optional destructive
confirmation gate (lines 110-120: `--confirm` asks unless `--yes` is set,
and any answer other than an affirmative prints "Restore cancelled." and
returns 0), then the restore loop.  Returns (exit code, event trace). -/
def restore_dots (env : DotsRestoreEnv) : Nat × List Event :=
  let banner : List Event := if env.noBanner then [] else [Event.bannerPrompt]
  if ¬ env.rsyncPresent then (1, banner)
  else
    let pre := banner ++ dots_pre_gate env
    if env.confirm then
      if env.autoYes then
        let r := dots_tail env
        (r.1, pre ++ r.2)
      else if answer_is_yes env.answer then
        let r := dots_tail env
        (r.1, pre ++ [Event.gatePrompt] ++ r.2)
      else
        (0, pre ++ [Event.gatePrompt, Event.cancelled])
    else
      let r := dots_tail env
      (r.1, pre ++ r.2)

/-! ## restore-smb.py as an event trace -/

/-- One service group of restore-smb.py (lines 60-66) as the resolution
loop sees it: whether a candidate unit is installed on the first lookup,
the operator's reply to the install prompt otherwise, and whether the
unit is found on the second lookup after the operator installed it. -/
structure ServiceOutcome where
  resolvedFirst : Bool
  installAnswer : String
  resolvedAfter : Bool
deriving DecidableEq, Repr

/-- Environment of one restore-smb.py invocation. -/
structure SmbRestoreEnv where
  noBanner : Bool
  autoYes : Bool
  confirm : Bool
  answer : String
  systemctlPresent : Bool
  services : List ServiceOutcome
  pdbeditPresent : Bool
  smbUser : String
  smbUserExists : Bool
  sudoPresent : Bool
  sudoOk : Bool
  fstabIsFile : Bool
  fstabLinesMissing : Bool
  smbConfExists : Bool
  sourceConfExists : Bool
  credsPresent : Bool
  sambaDirExists : Bool
  testparmPresent : Bool
  testparmOk : Bool
deriving Repr

/-- Service resolution loop of restore-smb.py (lines 68-86): a group
already installed is kept; otherwise the operator is asked to install it
(declining exits with 1), waits on a press-Enter prompt, and the lookup
is retried (still missing exits with 1).  Returns (loop completed,
events). -/
def smb_resolve_services : List ServiceOutcome → Bool × List Event
  | [] => (true, [])
  | s :: rest =>
    if s.resolvedFirst then smb_resolve_services rest
    else if ¬ answer_is_yes s.installAnswer then (false, [Event.servicePrompt])
    else if ¬ s.resolvedAfter then
      (false, [Event.servicePrompt, Event.pressEnter])
    else
      let r := smb_resolve_services rest
      (r.1, [Event.servicePrompt, Event.pressEnter] ++ r.2)

/-- The block of mutations restore-smb.py performs under sudo once the
authorization succeeded (lines 113-219), in source order: service
enabling, the cifs module load, the optional smbpasswd add, the /SMB
directory tree setup, the fstab append, the samba directory creation, the
smb.conf backup and restore, and the creds-* restore. -/
def smb_mutations (env : SmbRestoreEnv) : List Event :=
  env.services.map (fun _ => Event.sudoExec "systemctl-enable")
    ++ [Event.sudoExec "modprobe-cifs"]
    ++ (if env.pdbeditPresent && !(py_strip env.smbUser).data.isEmpty
          && !env.smbUserExists then [Event.sudoExec "smbpasswd-add"] else [])
    ++ [Event.sudoExec "mkdir-SMB", Event.sudoExec "chown-SMB",
        Event.sudoExec "chmod-SMB"]
    ++ (List.replicate 7
        [Event.sudoExec "mkdir-subdir", Event.sudoExec "chown-subdir",
         Event.sudoExec "chmod-subdir"]).flatten
    ++ (if env.fstabIsFile then
          (if env.fstabLinesMissing then [Event.writeFile "fstab"] else [])
        else [])
    ++ (if ¬ env.sambaDirExists then
          [Event.sudoExec "mkdir-samba", Event.sudoExec "chown-samba",
           Event.sudoExec "chmod-samba"]
        else [])
    ++ (if env.smbConfExists then [Event.writeFile "smb.conf.backup"] else [])
    ++ (if env.sourceConfExists then
          [Event.sudoExec "cp-smb.conf", Event.sudoExec "chown-smb.conf",
           Event.sudoExec "chmod-smb.conf"]
        else [])
    ++ (if env.credsPresent then
          [Event.sudoExec "cp-creds", Event.sudoExec "chown-creds",
           Event.sudoExec "chmod-creds"]
        else [])

/-- Everything restore-smb.py runs after the confirmation gate (lines
39-247), in source order: the systemctl tool check, service resolution,
the optional smbpasswd username prompt (pure discovery, no mutation), the
sudo check and `sudo -v` authorization, the sudo mutation block, the
testparm validation (non-zero exits with 1) and the service restart loop.
Returns (exit code, events). -/
def smb_tail (env : SmbRestoreEnv) : Nat × List Event :=
  if ¬ env.systemctlPresent then (1, [])
  else
    let r := smb_resolve_services env.services
    if ¬ r.1 then (1, r.2)
    else
      let tr := r.2 ++ (if env.pdbeditPresent then [Event.userPrompt] else [])
      if ¬ env.sudoPresent then (1, tr)
      else
        let tr := tr ++ [Event.sudoValidate]
        if ¬ env.sudoOk then (1, tr)
        else
          let tr := tr ++ smb_mutations env
          if (env.smbConfExists || env.sourceConfExists) && env.testparmPresent
              && !env.testparmOk then
            (1, tr ++ [Event.sudoQuery "testparm"])
          else
            let tr := tr ++
              (if (env.smbConfExists || env.sourceConfExists) && env.testparmPresent
               then [Event.sudoQuery "testparm"] else [])
            let tr := tr ++ env.services.flatMap
              (fun _ => [Event.serviceRestart "svc", Event.sudoQuery "is-active"])
            (0, tr)

/-- Whole-run model of restore-smb.py `main` (lines 13-247): banner, then
the destructive-restore confirmation gate (lines 28-37) before anything
else; with `--confirm` and no `--yes` the gate prompts and any answer
other than an affirmative prints "Restore cancelled." and returns 0; with
`--yes` the answer is preset to "y" without prompting; without
`--confirm` the gate is skipped.  Returns (exit code, event trace). -/
def restore_smb (env : SmbRestoreEnv) : Nat × List Event :=
  let banner : List Event := if env.noBanner then [] else [Event.bannerPrompt]
  if env.confirm then
    if env.autoYes then
      let r := smb_tail env
      (r.1, banner ++ r.2)
    else if answer_is_yes env.answer then
      let r := smb_tail env
      (r.1, banner ++ [Event.gatePrompt] ++ r.2)
    else
      (0, banner ++ [Event.gatePrompt, Event.cancelled])
  else
    let r := smb_tail env
    (r.1, banner ++ r.2)

/-! ## backup-ssh.py as an event trace -/

/-- Environment of one backup-ssh.py invocation.  Destination selection is
assumed to succeed (its own failure modes are covered by
`select_destination`). -/
structure SshEnv where
  noBanner : Bool
  autoYes : Bool
  noCompress : Bool
  compressReply : String
  manifestOnly : Bool
  rsyncPresent : Bool
  pigzPresent : Bool
  freeBytes : Nat
  sshDirIsDir : Bool
  sshDirCode : Nat
  sudoPresent : Bool
  sudoOk : Bool
  sshdConfigIsFile : Bool
  sshdCode : Nat
  rs1IsFile : Bool
  rs1Code : Nat
  rs2IsFile : Bool
  rs2Code : Nat
  agentDirLeft : Bool
  tarCode : Nat
deriving Repr

/-- Compression decision of backup-ssh.py (lines 116-125): `--yes` forces
compression, otherwise `--no-compress` disables it, otherwise the
operator is prompted and `reply.strip() or "Y"` must differ from "n"
case-insensitively. -/
def ssh_compress (env : SshEnv) : Bool :=
  if env.autoYes then true
  else if env.noCompress then false
  else
    let reply := py_strip env.compressReply
    let reply := if reply.data.isEmpty then "Y" else reply
    py_lower reply != "n"

/-- One restore-script iteration of the backup-ssh.py copy loop (lines
246-258): a missing file counts a failure without invoking rsync; an
existing file is copied once, and on success the copy in the run
directory is made executable. -/
def ssh_script_step (f : Nat) (tr : List Event) (isFile : Bool) (code : Nat)
    (name : String) : Nat × List Event :=
  if isFile then
    if rsync_raises code then (f + 1, tr ++ [Event.rsyncCopy name])
    else (f, tr ++ [Event.rsyncCopy name, Event.chmodFile name])
  else (f + 1, tr)

/-- The `~/.ssh` block of backup-ssh.py (lines 196-217): an existing
directory is copied once (excluding the agent socket), a missing one
counts a hard failure without invoking rsync. -/
def ssh_sshdir_step (env : SshEnv) : Nat × List Event :=
  if env.sshDirIsDir then
    ((if rsync_raises env.sshDirCode then 1 else 0),
     [Event.rsyncCopy "ssh-dir"])
  else (1, [])

/-- The sshd_config iteration of the backup-ssh.py copy loop (lines
220-245).  `ensure_sudo` runs here, inside the loop: it checks for the
sudo binary (no prompt when absent) and then runs `sudo -v`, the
credential prompt; a failed check counts one hard failure and the loop
continues.  On a successful elevated copy the file ownership and mode in
the run directory are fixed up. -/
def ssh_sshd_step (env : SshEnv) (f : Nat) (tr : List Event) :
    Nat × List Event :=
  if env.sshdConfigIsFile then
    if ¬ env.sudoPresent then (f + 1, tr)
    else
      let tr := tr ++ [Event.sudoValidate]
      if ¬ env.sudoOk then (f + 1, tr)
      else if rsync_raises env.sshdCode then
        (f + 1, tr ++ [Event.rsyncCopy "sshd_config"])
      else
        (f, tr ++ [Event.rsyncCopy "sshd_config",
                   Event.sudoExec "chown-sshd_config",
                   Event.sudoExec "chmod-sshd_config"])
  else (f + 1, tr)

/-- The copy section of backup-ssh.py (lines 195-263) in source order:
the `~/.ssh` block, then the loop over sshd_config and the two restore
scripts, and finally the removal of a stray agent directory inside the
run directory.  Returns (rsync_failures, events). -/
def ssh_copy_section (env : SshEnv) : Nat × List Event :=
  let st := ssh_sshdir_step env
  let st := ssh_sshd_step env st.1 st.2
  let st := ssh_script_step st.1 st.2 env.rs1IsFile env.rs1Code "restore-ssh.sh"
  let st := ssh_script_step st.1 st.2 env.rs2IsFile env.rs2Code "restore-ssh.py"
  (st.1, st.2 ++ (if env.agentDirLeft then [Event.removeTree "agent"] else []))

/-- Archive step of backup-ssh.py (lines 266-303): tar writes to a
temporary file; any non-zero exit sets `tar_failed` and unlinks the
partial temporary archive, success moves it into the run directory. -/
def ssh_tar (compress : Bool) (code : Nat) : Bool × List Event :=
  if compress then
    if code ≠ 0 then (true, [Event.tarRun, Event.unlinkTmp])
    else (false, [Event.tarRun, Event.moveArchive])
  else (false, [])

/-- Whole-run model of backup-ssh.py `main` (lines 70-324) in source
order: banner, compression choice, rsync and pigz tool checks (abort with
exit 1 before any side effect), destination selection, run-directory
creation, log setup, the free-space check (aborting with exit 1 after the
run directory exists), manifest write, the optional manifest-only return,
the copy section, the archive step, and the final gate that calls
`rotate_backups` only when there were no hard failures and no fatal
archive failure.  Returns (exit code, event trace). -/
def backup_ssh (env : SshEnv) : Nat × List Event :=
  let tr : List Event := if env.noBanner then [] else [Event.bannerPrompt]
  let compress := ssh_compress env
  let tr := tr ++
    (if env.autoYes || env.noCompress then [] else [Event.compressPrompt])
  if ¬ env.rsyncPresent then (1, tr)
  else if compress && !env.pigzPresent then (1, tr)
  else
    let tr := tr ++ [Event.selectDest, Event.mkdirDir "run_dir",
                     Event.openLog, Event.freeSpaceCheck]
    if ¬ check_free_space env.freeBytes 20 then (1, tr)
    else
      let tr := tr ++ [Event.writeFile "sources.txt"]
      if env.manifestOnly then (0, tr)
      else
        let c := ssh_copy_section env
        let tr := tr ++ c.2
        let t := ssh_tar compress env.tarCode
        let tr := tr ++ t.2
        if c.1 ≠ 0 ∨ t.1 then (1, tr)
        else (0, tr ++ [Event.rotateCall])

/-! ## Concrete inputs used by counterexamples and witnesses -/

/-- Whether an event is an rsync invocation. -/
def Event.isRsyncCopy : Event → Bool
  | .rsyncCopy _ => true
  | _ => false

/-- Five run directories with distinct modification times, in scrambled
order, for exercising the retention rotation. -/
def demoBackups : List RunDir :=
  [⟨"SSH-a", 50⟩, ⟨"SSH-b", 10⟩, ⟨"SSH-c", 40⟩, ⟨"SSH-d", 20⟩, ⟨"SSH-e", 30⟩]

/-- A restore-dots.py invocation with `--confirm`, no `--yes`, answer "n",
and an existing `~/.config/cava` directory. -/
def dotsGateCexEnv : DotsRestoreEnv :=
  { noBanner := true, autoYes := false, confirm := true, answer := "n"
    rsyncPresent := true, cavaExists := true, wallpapersExists := false
    hyprEnvIsFile := false, hyprEnvHasLine := false, groups := [] }

/-- A cancelled restore-dots.py invocation in which both symlink targets
exist and the Hyprland environment file needs the extra line. -/
def dotsCancelCexEnv : DotsRestoreEnv :=
  { noBanner := true, autoYes := false, confirm := true, answer := "no"
    rsyncPresent := true, cavaExists := true, wallpapersExists := true
    hyprEnvIsFile := true, hyprEnvHasLine := false
    groups := [⟨true, 0⟩] }

/-- A backup-ssh.py invocation in which every tool is present and every
source exists, but the destination has only 5 GiB free (the script
requires 20). -/
def sshSpaceCexEnv : SshEnv :=
  { noBanner := true, autoYes := true, noCompress := false
    compressReply := "", manifestOnly := false
    rsyncPresent := true, pigzPresent := true
    freeBytes := 5 * 1024 ^ 3
    sshDirIsDir := true, sshDirCode := 0
    sudoPresent := true, sudoOk := true
    sshdConfigIsFile := true, sshdCode := 0
    rs1IsFile := true, rs1Code := 0, rs2IsFile := true, rs2Code := 0
    agentDirLeft := false, tarCode := 0 }

/-- A restore-dots.py invocation with `--confirm` and `--yes` together:
the gate auto-confirms without prompting. -/
def dotsAutoEnv : DotsRestoreEnv :=
  { noBanner := true, autoYes := true, confirm := true, answer := ""
    rsyncPresent := true, cavaExists := false, wallpapersExists := true
    hyprEnvIsFile := true, hyprEnvHasLine := true
    groups := [⟨true, 0⟩, ⟨false, 0⟩] }

/-- A restore-smb.py invocation with `--confirm`, no `--yes`, the banner
shown, and the operator answering "n" at the gate. -/
def smbCancelEnv : SmbRestoreEnv :=
  { noBanner := false, autoYes := false, confirm := true, answer := "n"
    systemctlPresent := true, services := [⟨true, "", true⟩]
    pdbeditPresent := true, smbUser := "ralex", smbUserExists := false
    sudoPresent := true, sudoOk := true
    fstabIsFile := true, fstabLinesMissing := true
    smbConfExists := true, sourceConfExists := true
    credsPresent := true, sambaDirExists := true
    testparmPresent := true, testparmOk := true }

/-- A restore-smb.py invocation with `--confirm` and `--yes` together:
the gate auto-confirms without prompting. -/
def smbAutoEnv : SmbRestoreEnv :=
  { noBanner := true, autoYes := true, confirm := true, answer := ""
    systemctlPresent := true, services := [⟨true, "", true⟩]
    pdbeditPresent := false, smbUser := "", smbUserExists := false
    sudoPresent := true, sudoOk := true
    fstabIsFile := true, fstabLinesMissing := false
    smbConfExists := false, sourceConfExists := true
    credsPresent := false, sambaDirExists := true
    testparmPresent := true, testparmOk := true }

/-- A backup-ssh.py invocation with everything in place except that the
`sudo -v` authorization inside the copy loop fails. -/
def sshSudoFailEnv : SshEnv :=
  { noBanner := true, autoYes := true, noCompress := false
    compressReply := "", manifestOnly := false
    rsyncPresent := true, pigzPresent := true
    freeBytes := 100 * 1024 ^ 3
    sshDirIsDir := true, sshDirCode := 0
    sudoPresent := true, sudoOk := false
    sshdConfigIsFile := true, sshdCode := 0
    rs1IsFile := true, rs1Code := 0, rs2IsFile := true, rs2Code := 0
    agentDirLeft := false, tarCode := 0 }

/-! # Theorems

Helper lemmas first (loop characterizations shared by several claims),
then one theorem per claim. -/

/-- Characterization of the MAIN copy loop fold from an arbitrary initial
state: calls and totals count the existing sources, skips count the
missing ones, and failures count the existing sources whose rsync exit
code makes `run_rsync` raise. -/
theorem main_loop_foldl (srcs : List SrcOutcome) (init : MainLoopState) :
    (srcs.foldl main_loop_step init).rsync_calls
        = init.rsync_calls + (srcs.filter (·.present)).length
  ∧ (srcs.foldl main_loop_step init).sources_total
        = init.sources_total + (srcs.filter (·.present)).length
  ∧ (srcs.foldl main_loop_step init).sources_skipped
        = init.sources_skipped + (srcs.filter (fun s => !s.present)).length
  ∧ (srcs.foldl main_loop_step init).rsync_failures
        = init.rsync_failures
          + (srcs.filter (fun s => s.present && rsync_raises s.code)).length := by
  induction srcs generalizing init with
  | nil => simp
  | cons s rest ih =>
    obtain ⟨h1, h2, h3, h4⟩ := ih (main_loop_step init s)
    by_cases hp : s.present = true
    · by_cases hr : rsync_raises s.code = true
      · simp_all [main_loop_step, List.filter_cons]
        omega
      · simp_all [main_loop_step, List.filter_cons]
        omega
    · simp_all [main_loop_step, List.filter_cons]
      omega

/-- Characterization of the DOTS copy fold: every missing source and
every hard-failing existing source counts one failure, and rsync is
invoked exactly once per existing source. -/
theorem dots_copy_foldl (srcs : List SrcOutcome) (init : Nat × Nat) :
    (srcs.foldl dots_src_step init).1
        = init.1 + (srcs.filter
            (fun s => !s.present || rsync_raises s.code)).length
  ∧ (srcs.foldl dots_src_step init).2
        = init.2 + (srcs.filter (·.present)).length := by
  induction srcs generalizing init with
  | nil => simp
  | cons s rest ih =>
    obtain ⟨h1, h2⟩ := ih (dots_src_step init s)
    by_cases hp : s.present = true
    · by_cases hr : rsync_raises s.code = true
      · simp_all [dots_src_step, List.filter_cons]
        omega
      · simp_all [dots_src_step, List.filter_cons]
        omega
    · simp_all [dots_src_step, List.filter_cons]
      omega

/-- The GRUB loop step leaves the state unchanged in both branches. -/
theorem grub_loop_step_id (st : Nat × Nat) (s : SrcOutcome) :
    grub_loop_step st s = st := by
  unfold grub_loop_step
  split <;> rfl

/-- The GRUB copy loop fold is the identity on its initial state. -/
theorem grub_loop_foldl (srcs : List SrcOutcome) (init : Nat × Nat) :
    srcs.foldl grub_loop_step init = init := by
  induction srcs generalizing init with
  | nil => rfl
  | cons s rest ih => rw [List.foldl_cons, grub_loop_step_id]; exact ih _

/-- C1 (code bug): the claim says one rsync invocation per existing
declared source.  backup-main.py does exactly that, but in backup-grub.py
the copy statements are unreachable dead code after the `continue` of the
missing-source branch, so an existing source produces zero rsync
invocations: with a single existing source the GRUB loop performs no copy
at all while the MAIN loop performs exactly one. -/
theorem grub_copy_loop_dead_code :
    (grub_copy_loop [⟨true, 0⟩]).2 = 0
  ∧ (main_copy_loop [⟨true, 0⟩]).rsync_calls = 1
  ∧ ∀ srcs, grub_copy_loop srcs = (0, 0) := by
  refine ⟨by decide, by decide, fun srcs => grub_loop_foldl srcs (0, 0)⟩

/-- C2 (counterexample): in backup-main.py a missing declared source is
skipped, not counted as a hard failure: with one missing source and one
cleanly copied source, `rsync_failures` is 0, the source is only counted
in `sources_skipped`, and the run exits 0 even though a source was
missing — contradicting the claim that the missing entry is reported as
a HardFailure and makes the exit code 1. -/
theorem main_missing_source_skipped_cex :
    (main_copy_loop [⟨false, 0⟩, ⟨true, 0⟩]).rsync_failures = 0
  ∧ (main_copy_loop [⟨false, 0⟩, ⟨true, 0⟩]).sources_skipped = 1
  ∧ main_exit_code [⟨false, 0⟩, ⟨true, 0⟩] true 0 = 0 := by
  decide

/-- C2 (amended): in backup-dots.py a missing source is a hard failure —
counted into `rsync_failures` without invoking the transfer tool, the
remaining sources are still processed, and with exactly one missing
source and everything else succeeding the run exits 1; in backup-main.py
a missing source is skipped without invoking the transfer tool and
without affecting the failure count. -/
theorem missing_source_dots_vs_main (srcs : List SrcOutcome) :
    ((dots_copy srcs).1
        = (srcs.filter (fun s => !s.present || rsync_raises s.code)).length
      ∧ (dots_copy srcs).2 = (srcs.filter (·.present)).length)
  ∧ (∀ tarCode, (srcs.filter (fun s => !s.present)).length = 1 →
      (∀ s ∈ srcs, s.present = true → rsync_raises s.code = false) →
      dots_exit_code srcs true tarCode = 1)
  ∧ ((main_copy_loop srcs).sources_skipped
        = (srcs.filter (fun s => !s.present)).length
      ∧ (main_copy_loop srcs).rsync_calls = (srcs.filter (·.present)).length
      ∧ (main_copy_loop srcs).rsync_failures
        = (srcs.filter (fun s => s.present && rsync_raises s.code)).length) := by
  obtain ⟨hd1, hd2⟩ := dots_copy_foldl srcs (0, 0)
  obtain ⟨hm1, _, hm3, hm4⟩ := main_loop_foldl srcs ⟨0, 0, 0, 0⟩
  refine ⟨⟨by simpa using hd1, by simpa using hd2⟩, ?_, by simpa using hm3,
    by simpa using hm1, by simpa using hm4⟩
  intro tarCode hone hclean
  have hfail : (dots_copy srcs).1
      = (srcs.filter (fun s => !s.present)).length := by
    have : srcs.filter (fun s => !s.present || rsync_raises s.code)
        = srcs.filter (fun s => !s.present) := by
      apply List.filter_congr
      intro s hs
      by_cases hp : s.present = true
      · simp [hp, hclean s hs hp]
      · simp [Bool.not_eq_true] at hp
        simp [hp]
    simpa [this] using hd1
  have : (dots_copy srcs).1 = 1 := by rw [hfail, hone]
  simp [dots_exit_code, this]

/-- C2 witness: a DOTS source list with one missing entry and three clean
entries exits 1 with the missing entry as its only failure. -/
theorem missing_source_dots_vs_main_witness :
    dots_exit_code [⟨true, 0⟩, ⟨false, 0⟩, ⟨true, 24⟩, ⟨true, 23⟩] true 0 = 1 :=
  (missing_source_dots_vs_main [⟨true, 0⟩, ⟨false, 0⟩, ⟨true, 24⟩, ⟨true, 23⟩]).2.1
    0 (by decide) (by decide)

/-- The designated soft codes are exactly the ones that do not make
`run_rsync` raise among the non-zero exit codes. -/
theorem rsync_raises_iff (code : Nat) :
    rsync_raises code = true ↔ code ≠ 0 ∧ code ≠ 23 ∧ code ≠ 24 := by
  by_cases h23 : code = 23 <;> by_cases h24 : code = 24 <;>
    by_cases h0 : code = 0 <;>
    simp_all [rsync_raises, run_rsync]

/-- C3: rsync exit codes 23 and 24 are classified soft and are treated as
success for aggregation — inserting a source returning a soft code
anywhere in the MAIN loop leaves the failure count unchanged — while any
other non-zero code adds exactly one hard failure; in both cases the loop
still invokes rsync once for the classified source and continues over the
remaining sources. -/
theorem soft_exit_codes_not_counted (srcs rest : List SrcOutcome) (code : Nat) :
    (run_rsync 23 = .soft 23 ∧ run_rsync 24 = .soft 24
      ∧ rsync_raises 23 = false ∧ rsync_raises 24 = false)
  ∧ (code = 23 ∨ code = 24 →
      (main_copy_loop (srcs ++ ⟨true, code⟩ :: rest)).rsync_failures
        = (main_copy_loop (srcs ++ rest)).rsync_failures)
  ∧ (code ≠ 0 → code ≠ 23 → code ≠ 24 →
      (main_copy_loop (srcs ++ ⟨true, code⟩ :: rest)).rsync_failures
        = (main_copy_loop (srcs ++ rest)).rsync_failures + 1)
  ∧ (main_copy_loop (srcs ++ ⟨true, code⟩ :: rest)).rsync_calls
      = (main_copy_loop (srcs ++ rest)).rsync_calls + 1 := by
  obtain ⟨a1, _, _, a4⟩ := main_loop_foldl (srcs ++ ⟨true, code⟩ :: rest) ⟨0, 0, 0, 0⟩
  obtain ⟨b1, _, _, b4⟩ := main_loop_foldl (srcs ++ rest) ⟨0, 0, 0, 0⟩
  simp only [main_copy_loop] at a1 a4 b1 b4 ⊢
  rw [a1, a4, b1, b4]
  refine ⟨⟨by decide, by decide, by decide, by decide⟩, ?_, ?_, ?_⟩
  · rintro (rfl | rfl) <;>
      simp [List.filter_append, List.filter_cons, rsync_raises, run_rsync]
  · intro h0 h23 h24
    have hr : rsync_raises code = true := (rsync_raises_iff code).mpr ⟨h0, h23, h24⟩
    simp [List.filter_append, List.filter_cons, hr]
    omega
  · simp [List.filter_append, List.filter_cons]
    omega

/-- C3 witness: a soft code 23 in front of a hard code 7 adds no failure
beyond the hard one, while a hard code 5 adds exactly one. -/
theorem soft_exit_codes_not_counted_witness :
    (main_copy_loop [⟨true, 23⟩, ⟨true, 7⟩]).rsync_failures
      = (main_copy_loop [⟨true, 7⟩]).rsync_failures
  ∧ (main_copy_loop [⟨true, 5⟩, ⟨true, 0⟩]).rsync_failures
      = (main_copy_loop [⟨true, 0⟩]).rsync_failures + 1 :=
  ⟨(soft_exit_codes_not_counted [] [⟨true, 7⟩] 23).2.1 (Or.inl rfl),
   (soft_exit_codes_not_counted [] [⟨true, 0⟩] 5).2.2.1
     (by decide) (by decide) (by decide)⟩

/-- C4 (counterexample): in the backup-dots.py archive step the tar
warning exit code 1 is fatal, not a non-fatal partial success: it sets
`tar_failed` and makes an otherwise clean run exit 1 — contradicting the
claim that the files-changed-during-read warning code leaves the run not
marked failed. -/
theorem dots_tar_warning_fatal_cex :
    dots_tar_failed true 1 = true ∧ dots_exit_code [⟨true, 0⟩] true 1 = 1 := by
  decide

/-- C4 (amended): in backup-main.py tar exit code 1 is a non-fatal
warning (a clean run still exits 0) and any other non-zero tar exit is
fatal for the archive step (exit code 1); in backup-dots.py every
non-zero tar exit, the warning code 1 included, is fatal.  A fatal
archive step only unlinks the partial temporary archive (backup-ssh.py
shape shown); the copied files themselves are not rolled back. -/
theorem tar_exit_code_classification (srcs : List SrcOutcome) (code : Nat) :
    main_tar_failed true 1 = false
  ∧ ((main_copy_loop srcs).rsync_failures = 0 → main_exit_code srcs true 1 = 0)
  ∧ (code ≠ 0 → code ≠ 1 →
      main_tar_failed true code = true ∧ main_exit_code srcs true code = 1)
  ∧ (code ≠ 0 → dots_tar_failed true code = true
      ∧ dots_exit_code srcs true code = 1
      ∧ ssh_tar true code = (true, [Event.tarRun, Event.unlinkTmp])) := by
  refine ⟨by decide, ?_, ?_, ?_⟩
  · intro h
    simp [main_exit_code, main_tar_failed, h]
  · intro h0 h1
    have : main_tar_failed true code = true := by
      simp [main_tar_failed, h0, h1]
    exact ⟨this, by simp [main_exit_code, this]⟩
  · intro h0
    have : dots_tar_failed true code = true := by
      simp [dots_tar_failed, h0]
    exact ⟨this, by simp [dots_exit_code, this], by simp [ssh_tar, h0]⟩

/-- C4 witness: tar exit 1 leaves a clean MAIN run at exit 0, tar exit 7
fails it, and tar exit 1 fails a clean DOTS run. -/
theorem tar_exit_code_classification_witness :
    main_exit_code [⟨true, 0⟩] true 1 = 0
  ∧ (main_tar_failed true 7 = true ∧ main_exit_code [⟨true, 0⟩] true 7 = 1)
  ∧ (dots_tar_failed true 1 = true ∧ dots_exit_code [⟨true, 0⟩] true 1 = 1
      ∧ ssh_tar true 1 = (true, [Event.tarRun, Event.unlinkTmp])) :=
  ⟨(tar_exit_code_classification [⟨true, 0⟩] 7).2.1 (by decide),
   (tar_exit_code_classification [⟨true, 0⟩] 7).2.2.1 (by decide) (by decide),
   (tar_exit_code_classification [⟨true, 0⟩] 1).2.2.2 (by decide)⟩

/-- A restore-script copy-loop iteration only appends rsync and chmod
events: a rotation call in its output was already in the input trace. -/
theorem ssh_script_step_rotate (f : Nat) (tr : List Event) (isFile : Bool)
    (code : Nat) (name : String)
    (h : Event.rotateCall ∈ (ssh_script_step f tr isFile code name).2) :
    Event.rotateCall ∈ tr := by
  unfold ssh_script_step at h
  split at h
  · split at h <;> simp_all
  · exact h

/-- The sshd_config iteration only appends sudo and rsync events: a
rotation call in its output was already in the input trace. -/
theorem ssh_sshd_step_rotate (env : SshEnv) (f : Nat) (tr : List Event)
    (h : Event.rotateCall ∈ (ssh_sshd_step env f tr).2) :
    Event.rotateCall ∈ tr := by
  unfold ssh_sshd_step at h
  split at h
  · split at h
    · exact h
    · split at h
      · simp_all
      · split at h <;> simp_all
  · exact h

/-- The `~/.ssh` block never emits a rotation call. -/
theorem ssh_sshdir_no_rotate (env : SshEnv) :
    Event.rotateCall ∉ (ssh_sshdir_step env).2 := by
  unfold ssh_sshdir_step
  split <;> simp

/-- The copy section of backup-ssh.py never emits a rotation call. -/
theorem ssh_copy_section_no_rotate (env : SshEnv) :
    Event.rotateCall ∉ (ssh_copy_section env).2 := by
  intro h
  simp only [ssh_copy_section, List.mem_append] at h
  rcases h with h | h
  · exact ssh_sshdir_no_rotate env
      (ssh_sshd_step_rotate env _ _
        (ssh_script_step_rotate _ _ _ _ _
          (ssh_script_step_rotate _ _ _ _ _ h)))
  · split at h <;> simp_all

/-- The archive step of backup-ssh.py never emits a rotation call. -/
theorem ssh_tar_no_rotate (compress : Bool) (code : Nat) :
    Event.rotateCall ∉ (ssh_tar compress code).2 := by
  unfold ssh_tar
  repeat' split
  all_goals simp

/-- In the backup-ssh.py trace, a rotation call only ever appears in runs
that exit 0. -/
theorem backup_ssh_rotate_only_clean (env : SshEnv) :
    Event.rotateCall ∈ (backup_ssh env).2 → (backup_ssh env).1 = 0 := by
  have hc := ssh_copy_section_no_rotate env
  have ht := ssh_tar_no_rotate (ssh_compress env) env.tarCode
  simp only [backup_ssh]
  repeat' split
  all_goals intro hmem
  all_goals simp_all [List.mem_append]

/-- C5: retention is gated on a clean run.  At the final gate of
backup-ssh.py, a run summary with a non-zero hard-failure count or a
fatal archive failure returns exit code 1 and does not invoke
`rotate_backups`; correspondingly, in the whole-run trace a rotation call
only appears in runs that exit 0. -/
theorem rotate_gated_on_clean_run (s : SshSummary) (env : SshEnv)
    (h : 0 < s.rsync_failures ∨ s.tar_failed = true) :
    ((ssh_epilogue s).1 = 1 ∧ (ssh_epilogue s).2 = false)
  ∧ (Event.rotateCall ∈ (backup_ssh env).2 → (backup_ssh env).1 = 0) := by
  refine ⟨?_, backup_ssh_rotate_only_clean env⟩
  unfold ssh_epilogue
  rcases h with h | h
  · have hne : s.rsync_failures ≠ 0 := Nat.pos_iff_ne_zero.mp h
    simp [hne]
  · simp [h]

/-- C5 witness: a run with one hard failure exits 1 without rotating. -/
theorem rotate_gated_on_clean_run_witness :
    (ssh_epilogue ⟨1, false⟩).1 = 1 ∧ (ssh_epilogue ⟨1, false⟩).2 = false :=
  (rotate_gated_on_clean_run ⟨1, false⟩ sshSpaceCexEnv (Or.inl (by decide))).1

/-- C6: with a negative keep count `rotate_backups` deletes nothing; with
a keep count `k ≥ 0` the run directories are put in modification-time
descending order, the kept directories followed by the deleted ones are
exactly that ordering (so precisely the entries at index k and beyond are
deleted), together they are a permutation of the input, the deleted
entries number `length - k` (truncated) and the kept ones `min k length`,
and every deleted directory is at most as recent as every kept one. -/
theorem rotate_deletes_oldest_beyond_keep (backups : List RunDir) (keep : Int) :
    (keep < 0 → rotate_backups backups keep = [])
  ∧ (0 ≤ keep →
      List.Sorted mtime_ge (List.insertionSort mtime_ge backups)
      ∧ rotate_kept backups keep ++ rotate_backups backups keep
          = List.insertionSort mtime_ge backups
      ∧ (rotate_kept backups keep ++ rotate_backups backups keep).Perm backups
      ∧ (rotate_backups backups keep).length = backups.length - keep.toNat
      ∧ (rotate_kept backups keep).length = min keep.toNat backups.length
      ∧ ∀ s ∈ rotate_kept backups keep, ∀ d ∈ rotate_backups backups keep,
          d.mtime ≤ s.mtime) := by
  constructor
  · intro h
    simp [rotate_backups, h]
  · intro h
    have hnot : ¬ keep < 0 := not_lt.mpr h
    have hsorted : List.Sorted mtime_ge (List.insertionSort mtime_ge backups) :=
      List.sorted_insertionSort mtime_ge backups
    have htd : rotate_kept backups keep ++ rotate_backups backups keep
        = List.insertionSort mtime_ge backups := by
      simp [rotate_kept, rotate_backups, hnot, List.take_append_drop]
    refine ⟨hsorted, htd, ?_, ?_, ?_, ?_⟩
    · rw [htd]
      exact List.perm_insertionSort mtime_ge backups
    · simp [rotate_backups, hnot, List.length_drop, List.length_insertionSort]
    · simp [rotate_kept, hnot, List.length_take, List.length_insertionSort]
    · intro s hs d hd
      have hpw : List.Pairwise mtime_ge
          (rotate_kept backups keep ++ rotate_backups backups keep) := by
        rw [htd]; exact hsorted
      exact (List.pairwise_append.mp hpw).2.2 s hs d hd

/-- C6 witness: over five run directories with distinct modification
times and keep = 2, exactly the three oldest are deleted and the two
newest are kept, and keep = -1 deletes nothing. -/
theorem rotate_deletes_oldest_beyond_keep_witness :
    rotate_kept demoBackups 2 ++ rotate_backups demoBackups 2
        = List.insertionSort mtime_ge demoBackups
  ∧ rotate_backups demoBackups (-1) = []
  ∧ rotate_backups demoBackups 2
      = [⟨"SSH-e", 30⟩, ⟨"SSH-d", 20⟩, ⟨"SSH-b", 10⟩]
  ∧ rotate_kept demoBackups 2 = [⟨"SSH-a", 50⟩, ⟨"SSH-c", 40⟩] :=
  ⟨((rotate_deletes_oldest_beyond_keep demoBackups 2).2 (by decide)).2.1,
   (rotate_deletes_oldest_beyond_keep demoBackups (-1)).1 (by decide),
   by decide, by decide⟩

/-- C10: with a single candidate destination `select_destination` returns
it with no interactive prompt at all; with two or more candidates and a
valid in-range numeric choice it issues the index prompt and then the
confirmation prompt before returning the chosen destination — and since
the function takes no flag argument, no command-line flag can suppress
the confirmation prompt. -/
theorem select_destination_confirm_prompt (destinations : List String)
    (choice : String) (d : String) (i : Nat) :
    select_destination [d] choice = (some d, [])
  ∧ (2 ≤ destinations.length → py_isdigit (py_strip choice) = true →
      py_int (py_strip choice) = i → 1 ≤ i → i ≤ destinations.length →
      select_destination destinations choice
        = (some (destinations.getD (i - 1) ""),
           [SelectPrompt.selectNumber, SelectPrompt.confirmChoice])) := by
  refine ⟨rfl, ?_⟩
  intro hlen hdigit hint h1 hle
  match destinations, hlen with
  | a :: b :: rest, _ =>
    have hnot : ¬ (py_int (py_strip choice) < 1
        ∨ (a :: b :: rest).length < py_int (py_strip choice)) := by
      rw [hint]
      push_neg
      exact ⟨h1, hle⟩
    simp only [select_destination, hdigit, hnot, if_false, not_true,
      Bool.true_eq_false, if_neg, hint]
    simp [hint]
    constructor
    · omega
    · simpa using hle

/-- C10 witness: one candidate returns without prompting; two candidates
with choice "2" return the second after both prompts. -/
theorem select_destination_confirm_prompt_witness :
    select_destination ["alpha"] "x" = (some "alpha", [])
  ∧ select_destination ["alpha", "beta"] "2"
      = (some "beta",
         [SelectPrompt.selectNumber, SelectPrompt.confirmChoice]) :=
  ⟨(select_destination_confirm_prompt ["alpha", "beta"] "x" "alpha" 0).1,
   (select_destination_confirm_prompt ["alpha", "beta"] "2" "" 2).2
     (by decide) (by decide) (by decide) (by decide) (by decide)⟩

/-- Weakening for `List.all`. -/
theorem all_weaken {l : List Event} {p q : Event → Bool}
    (h : l.all p = true) (himp : ∀ e, p e = true → q e = true) :
    l.all q = true := by
  rw [List.all_eq_true] at h ⊢
  exact fun e he => himp e (h e he)

/-- `List.all` over a constant map. -/
theorem all_map_const {α : Type} (l : List α) (c : Event) {q : Event → Bool}
    (h : q c = true) : (l.map (fun _ => c)).all q = true := by
  induction l with
  | nil => rfl
  | cons x xs ih => simp_all

/-- `List.all` over a flatMap whose pieces all satisfy the predicate. -/
theorem all_flatMap_of {α : Type} (l : List α) (f : α → List Event)
    {q : Event → Bool} (h : ∀ a, (f a).all q = true) :
    (l.flatMap f).all q = true := by
  induction l with
  | nil => rfl
  | cons x xs ih =>
    simp_all [List.flatMap_cons, List.all_append]
    exact ⟨h x, fun a _ => h a⟩

/-- Everything kept by `takeWhile` before a stop event satisfies `q` when
the whole leading segment does. -/
theorem takeWhile_stop_all {p q : Event → Bool} (stop : Event)
    (l₁ l₂ : List Event) (h₁ : ∀ a ∈ l₁, p a = true)
    (h₂ : ∀ a ∈ l₁, q a = true) (hstop : p stop = false) :
    ((l₁ ++ stop :: l₂).takeWhile p).all q = true := by
  rw [List.takeWhile_append_of_pos h₁,
    List.takeWhile_cons_of_neg (by simp [hstop]), List.all_append]
  simp [List.all_eq_true]
  exact h₂

/-- Membership in the segment kept by `takeWhile` before a stop event. -/
theorem mem_takeWhile_stop {p : Event → Bool} (stop : Event)
    (l₁ l₂ : List Event) (e : Event) (h₁ : ∀ a ∈ l₁, p a = true)
    (hstop : p stop = false) (he : e ∈ l₁) :
    e ∈ (l₁ ++ stop :: l₂).takeWhile p := by
  rw [List.takeWhile_append_of_pos h₁,
    List.takeWhile_cons_of_neg (by simp [hstop])]
  simpa using he

/-- The pre-gate section of restore-dots.py consists of directory
creation, moves, symlink creations and one config write: no gate prompt,
no cancellation, and no rsync invocation occurs there. -/
theorem dots_pre_gate_ok (env : DotsRestoreEnv) :
    (dots_pre_gate env).all
      (fun e => gate_free e && !e.isRsyncCopy) = true := by
  unfold dots_pre_gate
  cases hc : env.cavaExists <;> cases hw : env.wallpapersExists <;>
    cases hh : env.hyprEnvIsFile <;> cases hl : env.hyprEnvHasLine <;>
      decide

/-- C7 (counterexample): in restore-dots.py, with `--confirm` set, no
`--yes`, and an existing `~/.config/cava`, a destructive file move occurs
strictly before the confirmation-gate prompt in the event trace, and the
run then cancels cleanly with exit 0 when the operator answers "n" — so
the gate does not run before every destructive file operation. -/
theorem dots_destructive_before_gate_cex :
    ((restore_dots dotsGateCexEnv).2.takeWhile
        (fun e => e ≠ Event.gatePrompt)).any Event.isDestructive = true
  ∧ Event.moveFile "cava" ∈
      (restore_dots dotsGateCexEnv).2.takeWhile (fun e => e ≠ Event.gatePrompt)
  ∧ (restore_dots dotsGateCexEnv).1 = 0 := by
  decide

/-- Everything kept by `takeWhile` before the gate prompt satisfies `q`
when the whole leading segment does. -/
theorem takeWhile_gate_all₁ {q : Event → Bool} (l₁ tail : List Event)
    (h : ∀ a ∈ l₁, (!(a == Event.gatePrompt)) = true ∧ q a = true) :
    ((l₁ ++ Event.gatePrompt :: tail).takeWhile
        (fun e => !(e == Event.gatePrompt))).all q = true := by
  rw [List.takeWhile_append_of_pos (fun a ha => (h a ha).1),
    List.takeWhile_cons_of_neg (by simp), List.all_append]
  simp [List.all_eq_true]
  exact fun a ha => (h a ha).2

/-- C7 (amended): in restore-smb.py the confirmation gate runs first —
before the gate prompt the trace holds nothing but the banner prompt, and
a cancelled run performs no destructive operation and never validates
sudo credentials; in restore-dots.py the rsync restore invocations only
happen after the gate, but the pre-gate symlink-setup block (directory
moves, symlink creation, config write) has already run by the time the
gate prompts. -/
theorem gate_ordering_smb_dots (env : SmbRestoreEnv) (denv : DotsRestoreEnv) :
    (env.confirm = true → env.autoYes = false →
      ((restore_smb env).2.takeWhile (fun e => !(e == Event.gatePrompt))).all
        (fun e => e == Event.bannerPrompt) = true)
  ∧ (env.confirm = true → env.autoYes = false →
      answer_is_yes env.answer = false →
      (restore_smb env).2.all
        (fun e => !e.isDestructive && !(e == Event.sudoValidate)) = true)
  ∧ (denv.confirm = true → denv.autoYes = false →
      ((restore_dots denv).2.takeWhile (fun e => !(e == Event.gatePrompt))).all
        (fun e => !e.isRsyncCopy) = true) := by
  refine ⟨?_, ?_, ?_⟩
  · intro hc ha
    cases hy : answer_is_yes env.answer <;> cases hb : env.noBanner <;>
      simp [restore_smb, hc, ha, hy, hb]
  · intro hc ha hy
    cases hb : env.noBanner <;>
      simp [restore_smb, hc, ha, hy, hb, Event.isDestructive]
  · intro hc ha
    have hpre := dots_pre_gate_ok denv
    rw [List.all_eq_true] at hpre
    have hpg : ∀ a ∈ dots_pre_gate denv,
        (!(a == Event.gatePrompt)) = true ∧ (!a.isRsyncCopy) = true := by
      intro a haa
      have h := hpre a haa
      simp only [Bool.and_eq_true] at h
      obtain ⟨h1, h2⟩ := h
      refine ⟨?_, h2⟩
      cases a <;> simp_all [gate_free]
    have hall : ∀ tail : List Event, ∀ x ∈
        (dots_pre_gate denv ++ Event.gatePrompt :: tail).takeWhile
          (fun e => !(e == Event.gatePrompt)), (!x.isRsyncCopy) = true := by
      intro tail
      have h := takeWhile_gate_all₁ (dots_pre_gate denv) tail hpg
      rw [List.all_eq_true] at h
      exact h
    cases hr : denv.rsyncPresent
    · cases hb : denv.noBanner <;>
        simp [restore_dots, hr, hb, Event.isRsyncCopy]
    · cases hy : answer_is_yes denv.answer <;> cases hb : denv.noBanner <;>
        simp [restore_dots, hr, hc, ha, hy, hb] <;>
        (try refine ⟨by decide, ?_⟩) <;>
        (intro x hx; simpa using hall _ x hx)

/-- C7 witness: with `--confirm`, no `--yes`, and the answer "n",
restore-smb.py keeps everything destructive and the sudo check behind the
gate, and restore-dots.py issues no rsync call before the gate. -/
theorem gate_ordering_smb_dots_witness :
    ((restore_smb smbCancelEnv).2.takeWhile
        (fun e => !(e == Event.gatePrompt))).all
      (fun e => e == Event.bannerPrompt) = true
  ∧ (restore_smb smbCancelEnv).2.all
      (fun e => !e.isDestructive && !(e == Event.sudoValidate)) = true
  ∧ ((restore_dots dotsGateCexEnv).2.takeWhile
        (fun e => !(e == Event.gatePrompt))).all
      (fun e => !e.isRsyncCopy) = true :=
  ⟨(gate_ordering_smb_dots smbCancelEnv dotsGateCexEnv).1 (by decide) (by decide),
   (gate_ordering_smb_dots smbCancelEnv dotsGateCexEnv).2.1
     (by decide) (by decide) (by decide),
   (gate_ordering_smb_dots smbCancelEnv dotsGateCexEnv).2.2
     (by decide) (by decide)⟩

/-- The service-resolution loop of restore-smb.py only emits install
prompts and press-Enter waits. -/
theorem smb_resolve_services_events (services : List ServiceOutcome) :
    (smb_resolve_services services).2.all
      (fun e => (e == Event.servicePrompt) || (e == Event.pressEnter)) = true := by
  induction services with
  | nil => rfl
  | cons s rest ih =>
    unfold smb_resolve_services
    split
    · exact ih
    · split
      · decide
      · split
        · decide
        · simpa [List.all_append] using ih

/-- The sudo mutation block of restore-smb.py neither prompts the gate
nor cancels. -/
theorem smb_mutations_gate_free (env : SmbRestoreEnv) :
    (smb_mutations env).all gate_free = true := by
  have hm : (env.services.map
      (fun _ => Event.sudoExec "systemctl-enable")).all gate_free = true :=
    all_map_const env.services _ rfl
  simp only [smb_mutations, List.all_append, Bool.and_eq_true]
  repeat' split
  all_goals simp_all [gate_free]

/-- Everything restore-smb.py runs after the gate neither prompts the
gate again nor cancels. -/
theorem smb_tail_gate_free (env : SmbRestoreEnv) :
    (smb_tail env).2.all gate_free = true := by
  have h1 : (smb_resolve_services env.services).2.all gate_free = true :=
    all_weaken (smb_resolve_services_events env.services) (fun e he => by
      simp only [Bool.or_eq_true, beq_iff_eq] at he
      rcases he with rfl | rfl <;> rfl)
  have h2 : (smb_mutations env).all gate_free = true :=
    smb_mutations_gate_free env
  have h3 : (env.services.flatMap
      (fun _ => [Event.serviceRestart "svc", Event.sudoQuery "is-active"])).all
      gate_free = true := all_flatMap_of env.services _ (fun _ => by decide)
  simp only [smb_tail]
  repeat' split
  all_goals simp_all [List.all_append, gate_free]

/-- One group iteration of the dots restore loop preserves an event
invariant that holds for directory creation and rsync invocation. -/
theorem dots_group_step_all {q : Event → Bool} (st : Nat × List Event)
    (g : GroupOutcome) (hq1 : q (Event.mkdirDir "group-dest") = true)
    (hq2 : q (Event.rsyncCopy "group") = true) (h : st.2.all q = true) :
    ((dots_group_step st g).2.all q) = true := by
  unfold dots_group_step
  split <;> simp_all [List.all_append]

/-- All events of the dots restore loop are directory creations or rsync
invocations. -/
theorem dots_restore_groups_all {q : Event → Bool} (groups : List GroupOutcome)
    (hq1 : q (Event.mkdirDir "group-dest") = true)
    (hq2 : q (Event.rsyncCopy "group") = true) :
    (dots_restore_groups groups).2.all q = true := by
  suffices h : ∀ init : Nat × List Event, init.2.all q = true →
      ((groups.foldl dots_group_step init).2.all q) = true from h (0, []) rfl
  induction groups with
  | nil => exact fun _ h => h
  | cons g rest ih =>
    intro init h
    rw [List.foldl_cons]
    exact ih _ (dots_group_step_all _ _ hq1 hq2 h)

/-- A list of gate-free events contains neither the gate prompt nor the
cancellation marker. -/
theorem not_mem_of_all_gate_free {l : List Event}
    (h : l.all gate_free = true) :
    Event.gatePrompt ∉ l ∧ Event.cancelled ∉ l := by
  rw [List.all_eq_true] at h
  constructor <;> intro hm
  · exact absurd (h _ hm) (by decide)
  · exact absurd (h _ hm) (by decide)

/-- C8 (counterexample): a cancelled restore-dots.py run (confirm
required, not auto-confirmed, answer "no") exits 0 but its trace already
contains destructive calls — the pre-gate directory moves and config
write — contradicting the claim that a non-affirmative answer leaves no
destructive calls made. -/
theorem dots_cancelled_after_mutation_cex :
    (restore_dots dotsCancelCexEnv).1 = 0
  ∧ (restore_dots dotsCancelCexEnv).2.any Event.isDestructive = true
  ∧ Event.cancelled ∈ (restore_dots dotsCancelCexEnv).2 := by
  decide

/-- C8 (amended): with confirmation required and no auto-confirm, a
non-affirmative answer cancels cleanly — restore-smb.py exits 0 with no
destructive call at all, and restore-dots.py (once its rsync tool check
passed) exits 0 with the restore loop never invoked, though its pre-gate
symlink setup has already run; with confirmation required and
auto-confirm set, the gate passes without ever prompting and the run is
not cancelled. -/
theorem gate_cancellation_semantics (env : SmbRestoreEnv)
    (denv : DotsRestoreEnv) :
    (env.confirm = true → env.autoYes = false →
      answer_is_yes env.answer = false →
      (restore_smb env).1 = 0
      ∧ Event.cancelled ∈ (restore_smb env).2
      ∧ (restore_smb env).2.all (fun e => !e.isDestructive) = true)
  ∧ (env.confirm = true → env.autoYes = true →
      Event.gatePrompt ∉ (restore_smb env).2
      ∧ Event.cancelled ∉ (restore_smb env).2)
  ∧ (denv.confirm = true → denv.autoYes = false →
      denv.rsyncPresent = true → answer_is_yes denv.answer = false →
      (restore_dots denv).1 = 0
      ∧ (restore_dots denv).2.all (fun e => !e.isRsyncCopy) = true)
  ∧ (denv.confirm = true → denv.autoYes = true → denv.rsyncPresent = true →
      Event.gatePrompt ∉ (restore_dots denv).2
      ∧ Event.cancelled ∉ (restore_dots denv).2) := by
  have hpre_rs : ∀ e ∈ dots_pre_gate denv, e.isRsyncCopy = false := by
    intro e he
    have h := dots_pre_gate_ok denv
    rw [List.all_eq_true] at h
    have h2 := h e he
    simp only [Bool.and_eq_true] at h2
    simpa using h2.2
  have hpre_gf : (dots_pre_gate denv).all gate_free = true :=
    all_weaken (dots_pre_gate_ok denv) (fun e he => by
      simp only [Bool.and_eq_true] at he
      exact he.1)
  have htail_gf : ((dots_tail denv).2).all gate_free = true := by
    simp only [dots_tail]
    exact dots_restore_groups_all denv.groups rfl rfl
  have hsmb_gf := not_mem_of_all_gate_free (smb_tail_gate_free env)
  refine ⟨?_, ?_, ?_, ?_⟩
  · intro hc ha hy
    cases hb : env.noBanner <;>
      simp [restore_smb, hc, ha, hy, hb, Event.isDestructive]
  · intro hc ha
    cases hb : env.noBanner <;>
      simp [restore_smb, hc, ha, hb] <;>
      exact ⟨hsmb_gf.1, hsmb_gf.2⟩
  · intro hc ha hrp hy
    cases hb : denv.noBanner <;> cases h1 : denv.cavaExists <;>
      cases h2 : denv.wallpapersExists <;> cases h3 : denv.hyprEnvIsFile <;>
      cases h4 : denv.hyprEnvHasLine <;>
      simp [restore_dots, dots_pre_gate, hc, ha, hrp, hy, hb, h1, h2, h3, h4,
        Event.isRsyncCopy]
  · intro hc ha hrp
    have htail := not_mem_of_all_gate_free htail_gf
    cases hb : denv.noBanner <;> cases h1 : denv.cavaExists <;>
      cases h2 : denv.wallpapersExists <;> cases h3 : denv.hyprEnvIsFile <;>
      cases h4 : denv.hyprEnvHasLine <;>
      simp [restore_dots, dots_pre_gate, hc, ha, hrp, hb, h1, h2, h3, h4] <;>
      exact ⟨htail.1, htail.2⟩

/-- C8 witness: a cancelled restore-smb.py run exits 0 with no
destructive calls; an auto-confirmed run never prompts the gate; a
cancelled restore-dots.py run exits 0 without invoking the restore loop;
an auto-confirmed restore-dots.py run never prompts the gate. -/
theorem gate_cancellation_semantics_witness :
    ((restore_smb smbCancelEnv).1 = 0
      ∧ Event.cancelled ∈ (restore_smb smbCancelEnv).2
      ∧ (restore_smb smbCancelEnv).2.all (fun e => !e.isDestructive) = true)
  ∧ (Event.gatePrompt ∉ (restore_smb smbAutoEnv).2
      ∧ Event.cancelled ∉ (restore_smb smbAutoEnv).2)
  ∧ ((restore_dots dotsCancelCexEnv).1 = 0
      ∧ (restore_dots dotsCancelCexEnv).2.all (fun e => !e.isRsyncCopy) = true)
  ∧ (Event.gatePrompt ∉ (restore_dots dotsAutoEnv).2
      ∧ Event.cancelled ∉ (restore_dots dotsAutoEnv).2) :=
  ⟨(gate_cancellation_semantics smbCancelEnv dotsCancelCexEnv).1
      (by decide) (by decide) (by decide),
   (gate_cancellation_semantics smbAutoEnv dotsCancelCexEnv).2.1
      (by decide) (by decide),
   (gate_cancellation_semantics smbCancelEnv dotsCancelCexEnv).2.2.1
      (by decide) (by decide) (by decide) (by decide),
   (gate_cancellation_semantics smbCancelEnv dotsAutoEnv).2.2.2
      (by decide) (by decide) (by decide)⟩

/-- A restore-script iteration of the backup-ssh.py copy loop appends its
events after the input trace. -/
theorem ssh_script_step_trace (f : Nat) (tr : List Event) (b : Bool)
    (c : Nat) (n : String) :
    ∃ d, (ssh_script_step f tr b c n).2 = tr ++ d := by
  unfold ssh_script_step
  split
  · split
    · exact ⟨_, rfl⟩
    · exact ⟨_, rfl⟩
  · exact ⟨[], (List.append_nil tr).symm⟩

/-- When sshd_config exists and the sudo binary is present, the
sshd_config iteration of the copy loop emits the `sudo -v` credential
prompt first among its own events. -/
theorem ssh_sshd_step_trace (env : SshEnv) (f : Nat) (tr : List Event)
    (h2 : env.sshdConfigIsFile = true) (h3 : env.sudoPresent = true) :
    ∃ d, (ssh_sshd_step env f tr).2 = tr ++ Event.sudoValidate :: d := by
  simp only [ssh_sshd_step, h2, h3, not_true, if_false, ite_true, ite_false]
  split
  · exact ⟨[], by simp⟩
  · split
    · exact ⟨[Event.rsyncCopy "sshd_config"], by simp⟩
    · exact ⟨[Event.rsyncCopy "sshd_config", Event.sudoExec "chown-sshd_config",
        Event.sudoExec "chmod-sshd_config"], by simp⟩

/-- When `~/.ssh` exists, sshd_config exists and the sudo binary is
present, the copy-section trace starts with the `~/.ssh` rsync copy
followed immediately by the in-loop `sudo -v` credential prompt. -/
theorem ssh_copy_section_shape (env : SshEnv) (h1 : env.sshDirIsDir = true)
    (h2 : env.sshdConfigIsFile = true) (h3 : env.sudoPresent = true) :
    ∃ d, (ssh_copy_section env).2
      = Event.rsyncCopy "ssh-dir" :: Event.sudoValidate :: d := by
  obtain ⟨d₁, hd₁⟩ := ssh_sshd_step_trace env (ssh_sshdir_step env).1
    (ssh_sshdir_step env).2 h2 h3
  obtain ⟨d₂, hd₂⟩ := ssh_script_step_trace
    (ssh_sshd_step env (ssh_sshdir_step env).1 (ssh_sshdir_step env).2).1
    (ssh_sshd_step env (ssh_sshdir_step env).1 (ssh_sshdir_step env).2).2
    env.rs1IsFile env.rs1Code "restore-ssh.sh"
  obtain ⟨d₃, hd₃⟩ := ssh_script_step_trace
    (ssh_script_step
      (ssh_sshd_step env (ssh_sshdir_step env).1 (ssh_sshdir_step env).2).1
      (ssh_sshd_step env (ssh_sshdir_step env).1 (ssh_sshdir_step env).2).2
      env.rs1IsFile env.rs1Code "restore-ssh.sh").1
    (ssh_script_step
      (ssh_sshd_step env (ssh_sshdir_step env).1 (ssh_sshdir_step env).2).1
      (ssh_sshd_step env (ssh_sshdir_step env).1 (ssh_sshdir_step env).2).2
      env.rs1IsFile env.rs1Code "restore-ssh.sh").2
    env.rs2IsFile env.rs2Code "restore-ssh.py"
  have hdir : (ssh_sshdir_step env).2 = [Event.rsyncCopy "ssh-dir"] := by
    simp [ssh_sshdir_step, h1]
  refine ⟨d₁ ++ d₂ ++ d₃
    ++ (if env.agentDirLeft then [Event.removeTree "agent"] else []), ?_⟩
  simp only [ssh_copy_section]
  rw [hd₃, hd₂, hd₁, hdir]
  simp

/-- C9 (counterexample): in backup-ssh.py with all tools present and a
destination with only 5 GiB free, the run aborts with exit 1 at the
free-space check, but the run directory has already been created — the
insufficient-space abort is not free of side effects. -/
theorem ssh_run_dir_created_before_space_check_cex :
    (backup_ssh sshSpaceCexEnv).1 = 1
  ∧ Event.mkdirDir "run_dir" ∈ (backup_ssh sshSpaceCexEnv).2
  ∧ Event.rsyncCopy "ssh-dir" ∉ (backup_ssh sshSpaceCexEnv).2 := by
  decide

/-- C9 (amended): the missing-tool checks abort backup-ssh.py before any
side effect (the trace holds only prompts); the free-space check aborts
with exit 1 before any copy, archive or rotation, but only after the run
directory has been created; and the privileged-execution check is not
performed up front — it happens inside the copy loop, strictly after the
`~/.ssh` copy has already run, and its failure counts as a hard failure
while the run continues to the remaining sources and the archive step. -/
theorem upfront_checks_ordering (env : SshEnv) :
    (env.rsyncPresent = false →
      (backup_ssh env).1 = 1
      ∧ (backup_ssh env).2.all
          (fun e => (e == Event.bannerPrompt) || (e == Event.compressPrompt))
        = true)
  ∧ (env.rsyncPresent = true → ssh_compress env = true →
      env.pigzPresent = false →
      (backup_ssh env).1 = 1
      ∧ (backup_ssh env).2.all
          (fun e => (e == Event.bannerPrompt) || (e == Event.compressPrompt))
        = true)
  ∧ (env.rsyncPresent = true → (ssh_compress env = true → env.pigzPresent = true) →
      check_free_space env.freeBytes 20 = false →
      (backup_ssh env).1 = 1
      ∧ Event.mkdirDir "run_dir" ∈ (backup_ssh env).2
      ∧ (backup_ssh env).2.all (fun e => !e.isRsyncCopy) = true
      ∧ Event.tarRun ∉ (backup_ssh env).2
      ∧ Event.rotateCall ∉ (backup_ssh env).2)
  ∧ (env.rsyncPresent = true → (ssh_compress env = true → env.pigzPresent = true) →
      check_free_space env.freeBytes 20 = true → env.manifestOnly = false →
      env.sshDirIsDir = true → env.sshdConfigIsFile = true →
      env.sudoPresent = true →
      Event.sudoValidate ∈ (backup_ssh env).2
      ∧ Event.sudoValidate ∉
          (backup_ssh env).2.takeWhile (fun e => !e.isRsyncCopy))
  ∧ ((backup_ssh sshSudoFailEnv).1 = 1
      ∧ Event.rsyncCopy "restore-ssh.sh" ∈ (backup_ssh sshSudoFailEnv).2
      ∧ Event.tarRun ∈ (backup_ssh sshSudoFailEnv).2) := by
  refine ⟨?_, ?_, ?_, ?_, by decide⟩
  · intro h
    constructor
    · simp [backup_ssh, h]
    · cases hb : env.noBanner <;> cases hpr : (env.autoYes || env.noCompress) <;>
        simp [backup_ssh, h, hb, hpr]
  · intro hr hc hp
    constructor
    · simp [backup_ssh, hr, hc, hp]
    · cases hb : env.noBanner <;> cases hpr : (env.autoYes || env.noCompress) <;>
        simp [backup_ssh, hr, hc, hp, hb, hpr]
  · intro hr himp hspace
    have hgate2 : ¬ ((ssh_compress env && !env.pigzPresent) = true) := by
      cases hcomp : ssh_compress env
      · simp
      · simp [himp hcomp]
    refine ⟨?_, ?_, ?_, ?_, ?_⟩ <;>
      (cases hb : env.noBanner <;> cases hpr : (env.autoYes || env.noCompress) <;>
        simp [backup_ssh, hr, hgate2, hspace, hb, hpr, Event.isRsyncCopy])
  · intro hr himp hspace hmo hd hcf hsp
    obtain ⟨D, hD⟩ := ssh_copy_section_shape env hd hcf hsp
    have hgate2 : ¬ ((ssh_compress env && !env.pigzPresent) = true) := by
      cases hcomp : ssh_compress env
      · simp
      · simp [himp hcomp]
    constructor
    · cases hb : env.noBanner <;> cases hpr : (env.autoYes || env.noCompress) <;>
        (simp [backup_ssh, hr, hgate2, hspace, hmo, hb, hpr, hD];
         split <;> simp [List.takeWhile_cons, Event.isRsyncCopy])
    · cases hb : env.noBanner <;> cases hpr : (env.autoYes || env.noCompress) <;>
        (simp [backup_ssh, hr, hgate2, hspace, hmo, hb, hpr, hD];
         split <;> simp [List.takeWhile_cons, Event.isRsyncCopy])

/-- C9 witness: a missing rsync aborts with a prompts-only trace; an
insufficient-space run aborts with exit 1 after creating the run
directory but before any copy; and in a full run the sudo credential
check occurs only after the first copy has already happened. -/
theorem upfront_checks_ordering_witness :
    ((backup_ssh { sshSpaceCexEnv with rsyncPresent := false }).1 = 1
      ∧ (backup_ssh { sshSpaceCexEnv with rsyncPresent := false }).2.all
          (fun e => (e == Event.bannerPrompt) || (e == Event.compressPrompt))
        = true)
  ∧ ((backup_ssh sshSpaceCexEnv).1 = 1
      ∧ Event.mkdirDir "run_dir" ∈ (backup_ssh sshSpaceCexEnv).2
      ∧ (backup_ssh sshSpaceCexEnv).2.all (fun e => !e.isRsyncCopy) = true
      ∧ Event.tarRun ∉ (backup_ssh sshSpaceCexEnv).2
      ∧ Event.rotateCall ∉ (backup_ssh sshSpaceCexEnv).2)
  ∧ (Event.sudoValidate ∈ (backup_ssh sshSudoFailEnv).2
      ∧ Event.sudoValidate ∉
          (backup_ssh sshSudoFailEnv).2.takeWhile (fun e => !e.isRsyncCopy)) :=
  ⟨(upfront_checks_ordering { sshSpaceCexEnv with rsyncPresent := false }).1 rfl,
   (upfront_checks_ordering sshSpaceCexEnv).2.2.1 rfl (fun _ => rfl) (by decide),
   (upfront_checks_ordering sshSudoFailEnv).2.2.2.1 rfl (fun _ => rfl)
     (by decide) rfl rfl rfl rfl⟩

end ArchBackup
